import Mathlib

/-!
Verification of the conversational linguistic-pipeline application.

The development embeds, in Lean, the parts of the application that the
checked properties talk about:

* the backend orchestration core (schema validator, session context,
  parameter enricher, tool dispatch, matrix pivot, clustering wrapper).
  The backend Python modules themselves are not part of the source tree;
  they are modelled from the specification and from the repository's own
  design documents (the MCP backend architecture document and the
  self-evaluation report), as indicated on each definition.
* the frontend React components that are present as TypeScript source
  (the chat interface, the data tables, the add-CSV-to-map handler of
  the app shell).  Those definitions are direct translations of the
  TypeScript.
-/

namespace Backend

/-- A cell of a tabular dataset.  Backend tables travel between tools as
typed dataframes; a cell is either a string or an integer. -/
inductive Value where
  | str (s : String)
  | int (z : Int)
deriving DecidableEq, Repr

/-- A tabular dataset: a header naming the columns and a list of rows. -/
structure Table where
  header : List String
  rows : List (List Value)
deriving DecidableEq, Repr

/-- Result of a schema validation pass, per the validator contract
`validate(table, expected_kind) -> {ok, errors, row_count}`. -/
structure ValidationResult where
  ok : Bool
  errors : List String
  row_count : Nat
deriving DecidableEq, Repr

/-- The eight case-sensitive columns of the core linguistic schema. -/
def coreColumns : List String :=
  ["Glottocode", "Language Family", "Language Name", "Concept",
   "Form", "Latitude", "Longitude", "Source"]

/-- Modelled from the spec: the backend function
`validate_core_schema(csv_data)` of the missing module `app/mcp/utils.py`
(the "single source of truth for the 8-column schema" of the
self-evaluation report).  Each missing core column and each unexpected
extra column is reported individually; the result is ok exactly when no
error was produced. -/
def validate_core_schema (t : Table) : ValidationResult :=
  let missing := coreColumns.filter (fun c => decide (c ∉ t.header))
  let extra := t.header.filter (fun c => decide (c ∉ coreColumns))
  let errors :=
    missing.map (fun c => "Missing column: " ++ c) ++
      extra.map (fun c => "Unexpected column: " ++ c)
  { ok := errors.isEmpty, errors := errors, row_count := t.rows.length }

/-- The five identity columns shared by the matrix and clustered
contracts. -/
def identityColumns : List String :=
  ["Glottocode", "Language Family", "Language Name", "Latitude", "Longitude"]

/-- A cell value interpretable as a boolean (0/1/true/false). -/
def isBoolValue : Value → Bool
  | .int 0 => true
  | .int 1 => true
  | .str "0" => true
  | .str "1" => true
  | .str "true" => true
  | .str "false" => true
  | _ => false

/-- A cell value that is an integer. -/
def isIntValue : Value → Bool
  | .int _ => true
  | .str _ => false

/-- A row cell, paired with its column name, that violates the binary
matrix contract: a non-identity column whose value is not interpretable
as a boolean. -/
def matrixCellBad (p : String × Value) : Bool :=
  decide (p.1 ∉ identityColumns) && !(isBoolValue p.2)

/-- Modelled from the spec: the binary matrix contract of the missing
backend validator.  The five identity columns must be present, at least
one non-identity (boolean-valued) column must exist, and every
non-identity cell of every row must be interpretable as a boolean; a row
that fails drops validity for the whole table. -/
def validate_matrix_schema (t : Table) : ValidationResult :=
  let missing := identityColumns.filter (fun c => decide (c ∉ t.header))
  let nonIdentity := t.header.filter (fun c => decide (c ∉ identityColumns))
  let structuralErrors :=
    missing.map (fun c => "Missing column: " ++ c) ++
      (if nonIdentity.isEmpty then ["No boolean-valued columns"] else [])
  let rowErrors :=
    (t.rows.filter (fun r => (t.header.zip r).any matrixCellBad)).map
      (fun _ => "Row has a non-boolean value in a concept column")
  let errors := structuralErrors ++ rowErrors
  { ok := errors.isEmpty, errors := errors, row_count := t.rows.length }

/-- A row cell, paired with its column name, that violates the clustered
contract: either a concept column (neither identity nor cluster_id)
whose value is not boolean-interpretable, or a cluster_id cell whose
value is not an integer. -/
def clusteredCellBad (p : String × Value) : Bool :=
  (decide (p.1 ∉ identityColumns) && decide (p.1 ≠ "cluster_id")
      && !(isBoolValue p.2)) ||
    (decide (p.1 = "cluster_id") && !(isIntValue p.2))

/-- Modelled from the spec: the clustered contract of the missing
backend validator.  It is the matrix contract plus a mandatory
`cluster_id` column whose values are integers (with -1 the reserved
noise sentinel). -/
def validate_clustered_schema (t : Table) : ValidationResult :=
  let missing := identityColumns.filter (fun c => decide (c ∉ t.header))
  let concepts := t.header.filter
    (fun c => decide (c ∉ identityColumns) && decide (c ≠ "cluster_id"))
  let structuralErrors :=
    missing.map (fun c => "Missing column: " ++ c) ++
      (if decide ("cluster_id" ∉ t.header) then ["Missing column: cluster_id"]
        else []) ++
      (if concepts.isEmpty then ["No boolean-valued columns"] else [])
  let rowErrors :=
    (t.rows.filter (fun r => (t.header.zip r).any clusteredCellBad)).map
      (fun _ => "Row has an ill-typed value")
  let errors := structuralErrors ++ rowErrors
  { ok := errors.isEmpty, errors := errors, row_count := t.rows.length }

/-- Artifact kinds held by a session context. -/
inductive Kind where
  | raw
  | normalized
  | matrix
  | clustered
deriving DecidableEq, Repr

/-- Provenance of an artifact. -/
inductive Provenance where
  | upload
  | harvest
  | producedBy (tool : String)
deriving DecidableEq, Repr

/-- A named, versioned tabular dataset held in the session context. -/
structure Artifact where
  kind : Kind
  table : Table
  provenance : Provenance
  revision : Nat
deriving DecidableEq, Repr

/-- Per-conversation session context: zero or more artifacts plus the
last-produced-kind pointer. -/
structure Context where
  artifacts : List Artifact
  last_produced_kind : Option Kind
deriving DecidableEq, Repr

/-- Validation gate error on the artifact write path. -/
structure SchemaError where
  errors : List String
deriving DecidableEq, Repr

/-- Modelled from the spec: the contract a table must satisfy before
being stored as an artifact of a given kind.  `raw` data is stored
unvalidated; `normalized` data must satisfy the core contract, `matrix`
the matrix contract and `clustered` the clustered contract. -/
def validateFor (k : Kind) (t : Table) : ValidationResult :=
  match k with
  | .raw => { ok := true, errors := [], row_count := t.rows.length }
  | .normalized => validate_core_schema t
  | .matrix => validate_matrix_schema t
  | .clustered => validate_clustered_schema t

/-- Modelled from the spec: `get_artifact(kind)` of the missing session
context object — the live artifact of the kind, if any. -/
def get_artifact (ctx : Context) (k : Kind) : Option Artifact :=
  ctx.artifacts.find? (fun a => decide (a.kind = k))

/-- Modelled from the spec: the revision counter the next artifact of a
kind receives — one more than the live artifact's revision, or 1 for the
first write of the kind. -/
def nextRevision (ctx : Context) (k : Kind) : Nat :=
  match get_artifact ctx k with
  | some a => a.revision + 1
  | none => 1

/-- Modelled from the spec: `put_artifact(kind, table, provenance)` of
the missing session context object.  The table is validated via the
contract for the kind before storing; on failure the call reports a
SchemaError and returns the context exactly as it was (all-or-nothing
write).  On success the prior artifact of the kind is replaced by the
new one, its revision counter is bumped, and `last_produced_kind` is
updated. -/
def put_artifact (ctx : Context) (k : Kind) (t : Table) (prov : Provenance) :
    Except SchemaError Artifact × Context :=
  let v := validateFor k t
  if v.ok then
    let a : Artifact := ⟨k, t, prov, nextRevision ctx k⟩
    (Except.ok a,
      ⟨a :: ctx.artifacts.filter (fun b => decide (b.kind ≠ k)), some k⟩)
  else
    (Except.error ⟨v.errors⟩, ctx)

/-- The data-consuming tools of the fixed tool registry. -/
inductive ToolName where
  | read_csv
  | validate_schema
  | normalize
  | to_binary_matrix
  | cluster
  | to_map_layer
deriving DecidableEq, Repr

/-- The registry name of a tool. -/
def toolNameStr : ToolName → String
  | .read_csv => "read_csv"
  | .validate_schema => "validate_schema"
  | .normalize => "normalize"
  | .to_binary_matrix => "to_binary_matrix"
  | .cluster => "cluster"
  | .to_map_layer => "to_map_layer"

/-- Modelled from the spec: the fixed, tool-specific priority list of
artifact kinds walked by the parameter enricher (`_enrich_params` of the
missing orchestrator module). -/
def priority : ToolName → List Kind
  | .read_csv => [.raw]
  | .validate_schema => [.raw]
  | .normalize => [.raw]
  | .to_binary_matrix => [.normalized, .raw]
  | .cluster => [.matrix]
  | .to_map_layer => [.clustered, .matrix, .normalized, .raw]

/-- Structured error returned when the enricher finds nothing to bind. -/
structure NoDataError where
  message : String
deriving DecidableEq, Repr

/-- Modelled from the spec: `enrich(tool_name, raw_arguments, context)`
of the missing orchestrator module.  A data argument supplied explicitly
by the caller is used as-is; otherwise the first artifact kind of the
tool's priority list that is present in the context is selected; if none
is present a structured NoDataError is returned.  Enrichment never
mutates the context. -/
def enrich (tool : ToolName) (explicitData : Option Table) (ctx : Context) :
    Except NoDataError Table :=
  match explicitData with
  | some t => Except.ok t
  | none =>
    match (priority tool).findSome?
        (fun k => (get_artifact ctx k).map (fun a => a.table)) with
    | some t => Except.ok t
    | none =>
      Except.error ⟨"no suitable data available for " ++ toolNameStr tool⟩

/-- The artifact slot a tool's output is written to. -/
def outputKind : ToolName → Kind
  | .read_csv => .raw
  | .validate_schema => .raw
  | .normalize => .normalized
  | .to_binary_matrix => .matrix
  | .cluster => .clustered
  | .to_map_layer => .clustered

/-- Modelled from the spec: the pre-execution validation gate — the
self-evaluation report's consolidated `validate_core_schema`, called at
the start of `to_binary_matrix`, `to_map_layer` and `cluster`; the other
tools accept their input unchecked. -/
def inputGate (tool : ToolName) (t : Table) : ValidationResult :=
  match tool with
  | .to_binary_matrix => validate_core_schema t
  | .to_map_layer => validate_core_schema t
  | .cluster => validate_core_schema t
  | _ => { ok := true, errors := [], row_count := t.rows.length }

/-- Outcome of one tool-dispatch turn. -/
inductive TurnOutcome where
  | noData (e : NoDataError)
  | schemaError (e : SchemaError)
  | ok (a : Artifact)
deriving DecidableEq, Repr

/-- Modelled from the spec: the orchestrator's dispatch of one requested
tool call — Enricher, then validation gate, then the registered handler,
then the context write.  The result carries the outcome, the context
after the turn, and whether the tool handler was invoked. -/
def run_tool (handler : ToolName → Table → Table) (tool : ToolName)
    (explicitData : Option Table) (ctx : Context) :
    TurnOutcome × Context × Bool :=
  match enrich tool explicitData ctx with
  | .error e => (.noData e, ctx, false)
  | .ok t =>
    let gate := inputGate tool t
    if gate.ok then
      let out := handler tool t
      match put_artifact ctx (outputKind tool) out
          (.producedBy (toolNameStr tool)) with
      | (.ok a, ctx') => (.ok a, ctx', true)
      | (.error e, ctx') => (.schemaError e, ctx', true)
    else
      (.schemaError ⟨gate.errors⟩, ctx, false)

/-- Rendering of a cell value as a string (used when a cell value names
a column of a pivoted table). -/
def valueToString : Value → String
  | .str s => s
  | .int z => toString z

/-- The cell of a row under a named column, via the header. -/
def cellOf (header : List String) (row : List Value) (c : String) : Value :=
  match (header.zip row).find? (fun p => decide (p.1 = c)) with
  | some p => p.2
  | none => .str ""

/-- The distinct concepts appearing in a core table, in order of first
appearance. -/
def conceptNames (t : Table) : List String :=
  (t.rows.map (fun r => valueToString (cellOf t.header r "Concept"))).dedup

/-- The distinct Glottocode cell values of a core table, in order of
first appearance. -/
def glottocodes (t : Table) : List Value :=
  (t.rows.map (fun r => cellOf t.header r "Glottocode")).dedup

/-- Modelled from the spec: the `to_binary_matrix` handler of the
missing backend tools module.  It pivots concept-per-row core data into
one row per language: the five identity columns are carried over from
the language's first row, and each distinct concept becomes a 0/1
column recording whether the language has a row for that concept. -/
def to_binary_matrix (t : Table) : Table :=
  let concepts := conceptNames t
  let rows := (glottocodes t).map (fun g =>
    let fr := (t.rows.find?
      (fun r => decide (cellOf t.header r "Glottocode" = g))).getD []
    let idVals : List Value :=
      [g, cellOf t.header fr "Language Family",
       cellOf t.header fr "Language Name",
       cellOf t.header fr "Latitude", cellOf t.header fr "Longitude"]
    let conceptVals := concepts.map (fun c =>
      if t.rows.any (fun r =>
          decide (cellOf t.header r "Glottocode" = g) &&
            decide (valueToString (cellOf t.header r "Concept") = c))
      then Value.int 1 else Value.int 0)
    idVals ++ conceptVals)
  ⟨identityColumns ++ concepts, rows⟩

/-- Modelled from the spec: the `cluster` handler of the missing
backend tools module, with the statistical algorithm treated as an
opaque `labels` capability (label -1 denoting noise).  It appends an
integer `cluster_id` column holding each row's label. -/
def cluster (t : Table) (labels : Nat → Int) : Table :=
  ⟨t.header ++ ["cluster_id"],
   t.rows.enum.map (fun p => p.2 ++ [Value.int (labels p.1)])⟩

/-- The column names reserved by the matrix and clustered contracts. -/
def reservedColumns : List String := identityColumns ++ ["cluster_id"]

end Backend

namespace Frontend

/-- A message of the chat transcript, as held in the ChatInterface
component's `messages` state. -/
structure ToolResultData where
  csv : Option String
  filename : Option String
  row_count : Option Nat
  wordlist : List String
deriving DecidableEq, Repr

/-- The `tool_data` attached to an assistant message. -/
structure ToolData where
  tool : Option String
  result : ToolResultData
deriving DecidableEq, Repr

/-- One entry of the ChatInterface `messages` state. -/
structure Message where
  role : String
  content : String
  toolData : Option ToolData
  thinkingTime : Option Nat
deriving DecidableEq, Repr

/-- Whether the first list is a leading segment of the second. -/
def leadMatches [DecidableEq α] : List α → List α → Bool
  | [], _ => true
  | _ :: _, [] => false
  | n :: ns, h :: hs => decide (n = h) && leadMatches ns hs

/-- Segment containment (the semantics of the JavaScript `includes`
method on strings). -/
def listContains [DecidableEq α] (hay needle : List α) : Bool :=
  if leadMatches needle hay then true
  else
    match hay with
    | [] => false
    | _ :: hs => listContains hs needle

/-- A JavaScript whitespace character (the common ones). -/
def isJsSpace (c : Char) : Bool :=
  decide (c = ' ') || decide (c = '\t') || decide (c = '\n') ||
    decide (c = '\r')

/-- JavaScript `s.trim()`. -/
def jsTrim (s : String) : String :=
  String.mk
    (((s.data.dropWhile isJsSpace).reverse.dropWhile isJsSpace).reverse)

/-- Splitting on a separator character; a trailing separator yields a
final empty field, as in JavaScript `split`. -/
def jsSplitAux (sep : Char) : List Char → List Char → List String
  | [], cur => [String.mk cur]
  | c :: rest, cur =>
    if c = sep then String.mk cur :: jsSplitAux sep rest []
    else jsSplitAux sep rest (cur ++ [c])

/-- JavaScript `s.split(sep)` for a one-character separator. -/
def jsSplitOn (s : String) (sep : Char) : List String :=
  jsSplitAux sep s.data []

/-- The character codes of a string after JavaScript `toLowerCase`,
modelled on the ASCII range. -/
def lowerCodes (s : String) : List Nat :=
  s.data.map (fun c =>
    if 65 ≤ c.toNat ∧ c.toNat ≤ 90 then c.toNat + 32 else c.toNat)

/-- JavaScript `hay.toLowerCase().includes(needle.toLowerCase())`. -/
def jsIncludesLower (hay needle : String) : Bool :=
  listContains (lowerCodes hay) (lowerCodes needle)

/-- JavaScript `s.endsWith(suffixStr)`. -/
def jsEndsWith (s suffixStr : String) : Bool :=
  leadMatches suffixStr.data.reverse s.data.reverse

/-- A JavaScript-truthy optional string: present and nonempty. -/
def truthyStr (o : Option String) : Option String :=
  o.bind (fun s => if s = "" then none else some s)

/-- JavaScript `a || b || bla` on two optional strings, with the empty
string as final fallback. -/
def orStr (a b : Option String) : String :=
  ((truthyStr a) <|> (truthyStr b)).getD ""

/-- Whether a CSV payload spans more than one line after trimming
(the ChatInterface condition guarding the Add-to-Map button:
`csv.trim().split('\n').length > 1`). -/
def csvMultiline (s : String) : Bool :=
  decide (1 < (jsSplitOn (jsTrim s) '\n').length)

/-- The text fragments the ChatInterface message renderer places into
the transcript for one message: the message content, the thinking-time
note, the labels of the CSV action buttons (with the row count), and
the wordlist preview.  The CSV payload itself is never among them. -/
def renderMessage (onAddToMap : Bool) (m : Message) : List String :=
  [m.content] ++
    (match m.thinkingTime with
      | some n =>
        if m.role = "assistant" then ["Thinking time: " ++ toString n ++ "s"]
        else []
      | none => []) ++
    (match m.toolData with
      | some td =>
        (match td.result.csv with
          | some s =>
            if decide (s ≠ "") then
              ["Download CSV"] ++
                (match td.result.row_count with
                  | some n =>
                    if decide (n ≠ 0) then
                      ["(" ++ toString n ++ " rows)"]
                    else []
                  | none => []) ++
                (if onAddToMap && csvMultiline s then ["Add to Map"] else [])
            else []
          | none => []) ++
          (if decide (0 < td.result.wordlist.length) then
            ["Wordlist (" ++ toString td.result.wordlist.length ++
                " concepts)"] ++
              td.result.wordlist.take 15 ++
              (if decide (15 < td.result.wordlist.length) then
                ["+" ++ toString (td.result.wordlist.length - 15) ++ " more"]
              else [])
          else [])
      | none => [])

/-- The concatenated transcript text of a message list. -/
def renderTranscript (onAddToMap : Bool) (msgs : List Message) :
    List String :=
  (msgs.map (renderMessage onAddToMap)).flatten

/-- The payload and filename handed to the download helper when the
Download-CSV button of a message is clicked: exactly the attached CSV
payload. -/
def downloadRequest (m : Message) : Option (String × String) :=
  match m.toolData with
  | some td =>
    match td.result.csv with
    | some s =>
      if decide (s ≠ "") then
        some (s, td.result.filename.getD "linguistic_data.csv")
      else none
    | none => none
  | none => none

/-- The message with its attached CSV payload replaced. -/
def withCsv (m : Message) (s : String) : Message :=
  { m with toolData := m.toolData.map (fun td =>
      { td with result := { td.result with csv := some s } }) }

/-- The per-layer filters of the data table components. -/
structure TableFilters where
  search : Option String
  parameter_filter : Option String
  form_filter : Option String
deriving DecidableEq, Repr

/-- A data record of a layer, restricted to the fields the data table
filter logic reads. -/
structure TableRec where
  Name : Option String
  name : Option String
  Description : Option String
  description : Option String
  parameter_name : Option String
  form_value : Option String
deriving DecidableEq, Repr

/-- The filter predicate of both DataTable components: the search text
must occur case-insensitively in the name or the description, and the
parameter and form filters must occur in their fields. -/
def matchesFilters (fl : TableFilters) (d : TableRec) : Bool :=
  (match truthyStr fl.search with
    | some s =>
      jsIncludesLower (orStr d.Name d.name) s ||
        jsIncludesLower (orStr d.Description d.description) s
    | none => true) &&
  (match truthyStr fl.parameter_filter with
    | some s => jsIncludesLower (d.parameter_name.getD "") s
    | none => true) &&
  (match truthyStr fl.form_filter with
    | some s => jsIncludesLower (d.form_value.getD "") s
    | none => true)

/-- The `filteredData` memo of both DataTable components. -/
def filteredRecords (data : List TableRec) (fl : TableFilters) :
    List TableRec :=
  data.filter (matchesFilters fl)

/-- The `displayData` of the docked DataTable: the first 100 filtered
records. -/
def dockedDisplayData (data : List TableRec) (fl : TableFilters) :
    List TableRec :=
  (filteredRecords data fl).take 100

/-- The `displayData` of the full-screen DataTable: the first 500
filtered records. -/
def fullDisplayData (data : List TableRec) (fl : TableFilters) :
    List TableRec :=
  (filteredRecords data fl).take 500

/-- The record list handed to `downloadCSV`/`downloadJSON` by the
export buttons of both DataTable components: the full `filteredData`,
not the display slice. -/
def exportRows (data : List TableRec) (fl : TableFilters) :
    List TableRec :=
  filteredRecords data fl

/-- A file offered to the chat upload control. -/
structure UploadFile where
  name : String
  content : String
deriving DecidableEq, Repr

/-- The ChatInterface state read and written by the upload handler. -/
structure ChatState where
  messages : List Message
  isLoading : Bool
  uploadedFile : Option String
deriving DecidableEq, Repr

/-- A chat request dispatched to the backend, reduced to the uploaded
payload. -/
structure ChatRequest where
  uploaded_file : String
deriving DecidableEq, Repr

/-- The `handleFileUpload` handler of the ChatInterface component, up
to the dispatch of the upload request (the asynchronous response
handling is outside the embedded state transition).  A missing file is
ignored; a file whose name does not end in ".csv" is rejected with an
alert before any message, loading-state or upload-state change and
before any request is sent. -/
def handleFileUpload (st : ChatState) (file : Option UploadFile) :
    ChatState × List ChatRequest × List String :=
  match file with
  | none => (st, [], [])
  | some f =>
    if !(jsEndsWith f.name ".csv") then
      (st, [], ["Please upload a CSV file"])
    else
      ({ messages := st.messages ++
          [{ role := "user",
             content := "I have uploaded a file: " ++ f.name,
             toolData := none, thinkingTime := none }],
         isLoading := true,
         uploadedFile := some f.name },
        [⟨f.content⟩], [])

/-- A decimal number `mant / 10 ^ scale`, the shallow model of the
JavaScript number a decimal literal parses to. -/
structure JsNum where
  mant : Int
  scale : Nat
deriving DecidableEq, Repr

/-- `10 ^ n` as an integer. -/
def pow10 : Nat → Int
  | 0 => 1
  | n + 1 => 10 * pow10 n

/-- Whether the integer `z` is at most the decimal `n`. -/
def intLeNum (z : Int) (n : JsNum) : Bool :=
  decide (z * pow10 n.scale ≤ n.mant)

/-- Whether the decimal `n` is at most the integer `z`. -/
def numLeInt (n : JsNum) (z : Int) : Bool :=
  decide (n.mant ≤ z * pow10 n.scale)

/-- A parsed cell of a chat-delivered CSV row: values under coordinate
column names are parsed to numbers (null when parseFloat yields NaN),
all other values stay strings. -/
inductive CellV where
  | str (s : String)
  | num (n : JsNum)
  | null
deriving DecidableEq, Repr

/-- Numeric value of a digit sequence. -/
def digitsVal (cs : List Char) : Nat :=
  cs.foldl (fun acc c => acc * 10 + (c.toNat - 48)) 0

/-- JavaScript `parseFloat` on a decimal literal: an optional sign, then
digits with an optional fractional part; trailing characters are
ignored; `none` models NaN (no leading number at all). -/
def jsParseFloat (s : String) : Option JsNum :=
  let signAndRest : Int × List Char :=
    match s.data with
    | '-' :: r => (-1, r)
    | '+' :: r => (1, r)
    | r => (1, r)
  let intPart := signAndRest.2.takeWhile Char.isDigit
  let rest2 := signAndRest.2.dropWhile Char.isDigit
  match rest2 with
  | '.' :: rest3 =>
    let fracPart := rest3.takeWhile Char.isDigit
    if intPart.isEmpty && fracPart.isEmpty then none
    else
      some ⟨signAndRest.1 *
          ((digitsVal intPart : Int) * pow10 fracPart.length +
            (digitsVal fracPart : Int)),
        fracPart.length⟩
  | _ =>
    if intPart.isEmpty then none
    else some ⟨signAndRest.1 * (digitsVal intPart : Int), 0⟩

/-- The character loop of the `parseCSVLine` helper of
`handleAddCsvToMap`: fields split on commas outside quotes, doubled
quotes inside a quoted run are literal quotes, and each field is
trimmed. -/
def parseCSVFields : List Char → Bool → List Char → List String
  | [], _, cur => [jsTrim (String.mk cur)]
  | '"' :: '"' :: rest, true, cur => parseCSVFields rest true (cur ++ ['"'])
  | '"' :: rest, true, cur => parseCSVFields rest false cur
  | '"' :: rest, false, cur => parseCSVFields rest true cur
  | ',' :: rest, true, cur => parseCSVFields rest true (cur ++ [','])
  | ',' :: rest, false, cur =>
    jsTrim (String.mk cur) :: parseCSVFields rest false []
  | c :: rest, inQ, cur => parseCSVFields rest inQ (cur ++ [c])

/-- `parseCSVLine` of the App component. -/
def parseCSVLine (line : String) : List String :=
  parseCSVFields line.data false []

/-- JavaScript `h.replace(/^"|"$/g, '')`: one leading and one trailing
quote are removed. -/
def stripOuterQuotes (s : String) : String :=
  let l := if s.data.head? = some '"' then s.data.tail else s.data
  String.mk (if l.getLast? = some '"' then l.dropLast else l)

/-- The column names whose values `handleAddCsvToMap` parses as
numbers. -/
def coordParseKeys : List String :=
  ["Latitude", "Longitude", "latitude", "longitude", "Lat", "Lon",
   "lat", "lon", "x", "y", "X", "Y"]

/-- The latitude column candidates of `handleAddCsvToMap`. -/
def latKeys : List String :=
  ["Latitude", "latitude", "Lat", "lat", "y", "Y"]

/-- The longitude column candidates of `handleAddCsvToMap`. -/
def lonKeys : List String :=
  ["Longitude", "longitude", "Lon", "lon", "x", "X"]

/-- One parsed data row of `handleAddCsvToMap`: each header is bound to
the corresponding value (empty when the row is short), with outer
quotes stripped and coordinate columns parsed to numbers or null. -/
def buildRow (headers : List String) (values : List String) :
    List (String × CellV) :=
  headers.enum.map (fun p =>
    let val := stripOuterQuotes (values.getD p.1 "")
    if decide (p.2 ∈ coordParseKeys) then
      match jsParseFloat val with
      | some q => (p.2, CellV.num q)
      | none => (p.2, CellV.null)
    else (p.2, CellV.str val))

/-- Property lookup on a parsed row; a later duplicate key wins, as in
JavaScript object assignment. -/
def rowGet (row : List (String × CellV)) (k : String) : Option CellV :=
  (row.reverse.find? (fun p => decide (p.1 = k))).map (fun p => p.2)

/-- The coordinate validity test of the `handleAddCsvToMap` filter: the
cell holds a finite number within the given bounds. -/
def validCoord (lo hi : Int) : Option CellV → Bool
  | some (CellV.num n) => intLeNum lo n && numLeInt n hi
  | _ => false

/-- The map layer produced by `handleAddCsvToMap`. -/
structure ChatLayer where
  data : List (List (String × CellV))
  filteredData : List (List (String × CellV))
  latCol : String
  lonCol : String
  isSpatial : Bool
deriving DecidableEq, Repr

/-- The `handleAddCsvToMap` callback of the App component: it parses
the chat-delivered CSV, binds rows whose width is within two columns of
the header width, detects coordinate columns, and keeps as
`filteredData` only the rows whose coordinates are finite numbers in
[-90, 90] and [-180, 180] — rows that fail are dropped without any
error being recorded.  `none` models the early returns (fewer than two
lines, or no row parsed). -/
def handleAddCsvToMap (csvData : String) : Option ChatLayer :=
  let lines := (jsSplitOn (jsTrim csvData) '\n').filter
    (fun l => decide (jsTrim l ≠ ""))
  if lines.length < 2 then none
  else
    let headers := (parseCSVLine (lines.getD 0 "")).map stripOuterQuotes
    let data := (lines.drop 1).filterMap (fun line =>
      let values := parseCSVLine line
      if values.length ≤ headers.length + 2 ∧
          headers.length ≤ values.length + 2
      then some (buildRow headers values) else none)
    if data.isEmpty then none
    else
      let latCol := (headers.find?
        (fun h => decide (h ∈ latKeys))).getD ""
      let lonCol := (headers.find?
        (fun h => decide (h ∈ lonKeys))).getD ""
      let filteredData :=
        if latCol ≠ "" ∧ lonCol ≠ "" then
          data.filter (fun d =>
            validCoord (-90) 90 (rowGet d latCol) &&
              validCoord (-180) 180 (rowGet d lonCol))
        else data
      some ⟨data, filteredData, latCol, lonCol,
        decide (latCol ≠ "") && decide (lonCol ≠ "") &&
          !filteredData.isEmpty⟩

/-- A chat CSV whose second data row has latitude 95.0 (out of range)
and whose third has a degree-prefixed latitude. -/
def chatCsvSample : String :=
  "Glottocode,Language Family,Language Name,Concept,Form,Latitude,Longitude,Source
" ++
  "l1,F,A,water,aqua,10.0,20.0,src
" ++
  "l2,F,B,water,aqua,95.0,20.0,src
" ++
  "l3,F,C,water,aqua,°12.5,20.0,src"

end Frontend

namespace Backend


/-- C1: `validate_core_schema` accepts a table exactly when its column
set is precisely the eight core columns (in any order), and every
missing core column and every unexpected extra column is named
individually in the error list. -/
theorem validate_core_schema_ok_iff (t : Table) :
    ((validate_core_schema t).ok = true ↔
      (∀ c : String, c ∈ t.header ↔ c ∈ coreColumns)) ∧
    (∀ c : String, c ∈ coreColumns → c ∉ t.header →
      ("Missing column: " ++ c) ∈ (validate_core_schema t).errors) ∧
    (∀ c : String, c ∈ t.header → c ∉ coreColumns →
      ("Unexpected column: " ++ c) ∈ (validate_core_schema t).errors) := by
  refine ⟨?_, ?_, ?_⟩
  · simp only [validate_core_schema, List.isEmpty_iff, List.append_eq_nil,
      List.map_eq_nil_iff, List.filter_eq_nil_iff, decide_eq_true_eq]
    constructor
    · rintro ⟨h1, h2⟩ c
      constructor
      · intro hc
        by_contra hnc
        exact h2 c hc hnc
      · intro hc
        by_contra hnc
        exact h1 c hc hnc
    · intro h
      exact ⟨fun c hc hnc => hnc ((h c).mpr hc), fun c hc hnc => hnc ((h c).mp hc)⟩
  · intro c hc hnc
    simp only [validate_core_schema, List.mem_append, List.mem_map]
    exact Or.inl ⟨c, by simp [List.mem_filter, hc, hnc]⟩
  · intro c hc hnc
    simp only [validate_core_schema, List.mem_append, List.mem_map]
    exact Or.inr ⟨c, by simp [List.mem_filter, hc, hnc]⟩

/-- Witness for C1: a table missing `Source` and carrying an extra
`Color` column is rejected with both columns named individually. -/
theorem validate_core_schema_ok_iff_witness :
    ("Missing column: Source") ∈
      (validate_core_schema
        ⟨["Glottocode", "Language Family", "Language Name", "Concept",
          "Form", "Latitude", "Longitude", "Color"], []⟩).errors ∧
    ("Unexpected column: Color") ∈
      (validate_core_schema
        ⟨["Glottocode", "Language Family", "Language Name", "Concept",
          "Form", "Latitude", "Longitude", "Color"], []⟩).errors ∧
    (validate_core_schema
        ⟨coreColumns.reverse, []⟩).ok = true := by
  refine ⟨?_, ?_, ?_⟩
  · exact (validate_core_schema_ok_iff _).2.1 "Source" (by decide) (by decide)
  · exact (validate_core_schema_ok_iff _).2.2 "Color" (by decide) (by decide)
  · exact (validate_core_schema_ok_iff _).1.mpr (by intro c; simp [List.mem_reverse])

/-- Filtering for a kind after filtering the kind away yields nothing. -/
theorem filter_kind_of_filter_ne (l : List Artifact) (k : Kind) :
    (l.filter (fun b => decide (b.kind ≠ k))).filter
      (fun a => decide (a.kind = k)) = [] := by
  induction l with
  | nil => rfl
  | cons x xs ih =>
    by_cases hx : x.kind = k <;> simp [List.filter_cons, hx, ih]

/-- C2: a `put_artifact` call whose table fails validation reports a
SchemaError carrying the itemized validation errors and leaves the
context observably unchanged: `get_artifact` afterwards returns, for
every kind, exactly what it returned before, and `last_produced_kind`
is not updated. -/
theorem put_artifact_atomic (ctx : Context) (k : Kind) (t : Table)
    (prov : Provenance) (h : (validateFor k t).ok = false) :
    (put_artifact ctx k t prov).1 =
        Except.error ⟨(validateFor k t).errors⟩ ∧
    (∀ k' : Kind, get_artifact (put_artifact ctx k t prov).2 k' =
        get_artifact ctx k') ∧
    (put_artifact ctx k t prov).2.last_produced_kind =
        ctx.last_produced_kind := by
  refine ⟨?_, ?_, ?_⟩ <;> simp [put_artifact, h]

/-- Witness for C2: writing a one-column table as `normalized` into a
context that already holds a normalized artifact fails validation and
leaves the prior artifact exactly as it was. -/
theorem put_artifact_atomic_witness :
    (validateFor Kind.normalized ⟨["Glottocode"], []⟩).ok = false ∧
    get_artifact
        (put_artifact ⟨[⟨Kind.normalized, ⟨coreColumns, []⟩,
            Provenance.upload, 1⟩], some Kind.normalized⟩
          Kind.normalized ⟨["Glottocode"], []⟩ Provenance.upload).2
        Kind.normalized =
      some ⟨Kind.normalized, ⟨coreColumns, []⟩, Provenance.upload, 1⟩ ∧
    ((put_artifact ⟨[⟨Kind.normalized, ⟨coreColumns, []⟩,
            Provenance.upload, 1⟩], some Kind.normalized⟩
          Kind.normalized ⟨["Glottocode"], []⟩ Provenance.upload).2).last_produced_kind
      = some Kind.normalized := by
  have h := put_artifact_atomic
    ⟨[⟨Kind.normalized, ⟨coreColumns, []⟩, Provenance.upload, 1⟩],
      some Kind.normalized⟩
    Kind.normalized ⟨["Glottocode"], []⟩ Provenance.upload (by decide)
  refine ⟨by decide, ?_, ?_⟩
  · rw [h.2.1 Kind.normalized]
    decide
  · rw [h.2.2]

/-- C5: a successful `put_artifact` leaves exactly one live artifact of
the written kind (the new table replaces the prior one rather than
being added next to it), putting the same valid table twice still
leaves exactly one live artifact whose revision counter was incremented,
and the at-most-one-artifact-per-kind invariant is preserved for every
kind. -/
theorem put_artifact_single_live (ctx : Context) (k : Kind) (t : Table)
    (prov : Provenance) (h : (validateFor k t).ok = true) :
    (((put_artifact ctx k t prov).2.artifacts.filter
        (fun a => decide (a.kind = k))).length = 1) ∧
    (((put_artifact (put_artifact ctx k t prov).2 k t prov).2.artifacts.filter
        (fun a => decide (a.kind = k))).length = 1) ∧
    (∃ a1 a2 : Artifact,
      get_artifact (put_artifact ctx k t prov).2 k = some a1 ∧
      get_artifact
          (put_artifact (put_artifact ctx k t prov).2 k t prov).2 k =
        some a2 ∧
      a1.table = t ∧ a2.table = t ∧ a2.revision = a1.revision + 1) ∧
    (∀ k' : Kind,
      ((ctx.artifacts.filter (fun a => decide (a.kind = k'))).length ≤ 1) →
      (((put_artifact ctx k t prov).2.artifacts.filter
          (fun a => decide (a.kind = k'))).length ≤ 1)) := by
  have hctx1 : (put_artifact ctx k t prov).2 =
      ⟨(⟨k, t, prov, nextRevision ctx k⟩ : Artifact) ::
        ctx.artifacts.filter (fun b => decide (b.kind ≠ k)), some k⟩ := by
    simp [put_artifact, h]
  have hget1 : get_artifact (put_artifact ctx k t prov).2 k =
      some ⟨k, t, prov, nextRevision ctx k⟩ := by
    rw [hctx1]
    simp [get_artifact, List.find?_cons_of_pos]
  have hctx2 : (put_artifact (put_artifact ctx k t prov).2 k t prov).2 =
      ⟨(⟨k, t, prov, nextRevision (put_artifact ctx k t prov).2 k⟩ :
          Artifact) ::
        (put_artifact ctx k t prov).2.artifacts.filter
          (fun b => decide (b.kind ≠ k)), some k⟩ := by
    simp [put_artifact, h]
  have hget2 :
      get_artifact (put_artifact (put_artifact ctx k t prov).2 k t prov).2 k =
      some ⟨k, t, prov, nextRevision (put_artifact ctx k t prov).2 k⟩ := by
    rw [hctx2]
    simp [get_artifact, List.find?_cons_of_pos]
  refine ⟨?_, ?_, ?_, ?_⟩
  · rw [hctx1]
    simp [List.filter_cons, filter_kind_of_filter_ne]
  · rw [hctx2, hctx1]
    simp [List.filter_cons, filter_kind_of_filter_ne]
  · refine ⟨_, _, hget1, hget2, rfl, rfl, ?_⟩
    simp [nextRevision, hget1]
  · intro k' hk'
    rw [hctx1]
    by_cases hkk : k = k'
    · subst hkk
      simp [List.filter_cons, filter_kind_of_filter_ne]
    · have hsub : List.Sublist
          ((ctx.artifacts.filter
            (fun b => decide (b.kind ≠ k))).filter
              (fun a => decide (a.kind = k')))
          (ctx.artifacts.filter (fun a => decide (a.kind = k'))) :=
        (ctx.artifacts.filter_sublist).filter _
      calc (((⟨k, t, prov, nextRevision ctx k⟩ : Artifact) ::
              ctx.artifacts.filter (fun b => decide (b.kind ≠ k))).filter
                (fun a => decide (a.kind = k'))).length
          = ((ctx.artifacts.filter (fun b => decide (b.kind ≠ k))).filter
              (fun a => decide (a.kind = k'))).length := by
            simp [List.filter_cons, hkk]
        _ ≤ (ctx.artifacts.filter (fun a => decide (a.kind = k'))).length :=
            hsub.length_le
        _ ≤ 1 := hk'

/-- Witness for C5: putting the full core table twice as `normalized`
into the empty context leaves one live normalized artifact at revision
2. -/
theorem put_artifact_single_live_witness :
    (validateFor Kind.normalized ⟨coreColumns, []⟩).ok = true ∧
    (((put_artifact
          (put_artifact ⟨[], none⟩ Kind.normalized ⟨coreColumns, []⟩
            Provenance.upload).2
          Kind.normalized ⟨coreColumns, []⟩ Provenance.upload).2.artifacts.filter
        (fun a => decide (a.kind = Kind.normalized))).length = 1) := by
  have h := put_artifact_single_live ⟨[], none⟩ Kind.normalized
    ⟨coreColumns, []⟩ Provenance.upload (by decide)
  exact ⟨by decide, h.2.1⟩

/-- C3: an explicitly supplied data argument is always used as-is; with
no explicit data, `enrich` for `to_binary_matrix` selects the
`normalized` artifact whenever one is present (never `raw`), and falls
back to `raw` when only `raw` is present. -/
theorem enrich_explicit_wins_and_priority (ctx : Context) :
    (∀ (tool : ToolName) (d : Table), enrich tool (some d) ctx = .ok d) ∧
    (∀ a b : Artifact, get_artifact ctx .normalized = some a →
      get_artifact ctx .raw = some b →
      enrich .to_binary_matrix none ctx = .ok a.table) ∧
    (get_artifact ctx .normalized = none →
      ∀ b : Artifact, get_artifact ctx .raw = some b →
        enrich .to_binary_matrix none ctx = .ok b.table) := by
  refine ⟨fun tool d => rfl, ?_, ?_⟩
  · intro a b ha hb
    simp [enrich, priority, List.findSome?_cons, ha]
  · intro ha b hb
    simp [enrich, priority, List.findSome?_cons, ha, hb]

/-- Witness for C3: in a context holding both a normalized and a raw
artifact, enriching `to_binary_matrix` with no explicit data selects
the normalized table; in a context holding only the raw artifact it
selects the raw table; an explicitly supplied table wins. -/
theorem enrich_explicit_wins_and_priority_witness :
    enrich ToolName.to_binary_matrix none
        ⟨[⟨Kind.raw, ⟨["A"], []⟩, Provenance.upload, 1⟩,
          ⟨Kind.normalized, ⟨coreColumns, []⟩, Provenance.upload, 1⟩],
          some Kind.normalized⟩ =
      Except.ok ⟨coreColumns, []⟩ ∧
    enrich ToolName.to_binary_matrix none
        ⟨[⟨Kind.raw, ⟨["A"], []⟩, Provenance.upload, 1⟩], some Kind.raw⟩ =
      Except.ok ⟨["A"], []⟩ ∧
    enrich ToolName.to_binary_matrix (some ⟨["B"], []⟩)
        ⟨[⟨Kind.normalized, ⟨coreColumns, []⟩, Provenance.upload, 1⟩],
          some Kind.normalized⟩ =
      Except.ok ⟨["B"], []⟩ := by
  refine ⟨?_, ?_, ?_⟩
  · exact (enrich_explicit_wins_and_priority _).2.1
      ⟨Kind.normalized, ⟨coreColumns, []⟩, Provenance.upload, 1⟩
      ⟨Kind.raw, ⟨["A"], []⟩, Provenance.upload, 1⟩ (by decide) (by decide)
  · exact (enrich_explicit_wins_and_priority _).2.2 (by decide)
      ⟨Kind.raw, ⟨["A"], []⟩, Provenance.upload, 1⟩ (by decide)
  · exact (enrich_explicit_wins_and_priority _).1 ToolName.to_binary_matrix
      ⟨["B"], []⟩

/-- C4: when no artifact kind of a tool's priority list is present in
the context, dispatching the tool yields the structured no-data error,
the tool handler is never invoked (the result is the same for every
handler and the invoked flag is false), and the context is unchanged. -/
theorem run_tool_no_data (handler : ToolName → Table → Table)
    (tool : ToolName) (ctx : Context)
    (h : ∀ k ∈ priority tool, get_artifact ctx k = none) :
    run_tool handler tool none ctx =
      (TurnOutcome.noData
          ⟨"no suitable data available for " ++ toolNameStr tool⟩,
        ctx, false) := by
  have hnone : (priority tool).findSome?
      (fun k => (get_artifact ctx k).map (fun a => a.table)) = none := by
    rw [List.findSome?_eq_none_iff]
    intro k hk
    rw [h k hk]
    rfl
  simp [run_tool, enrich, hnone]

/-- Witness for C4: clustering on the empty context fails with the
no-data error without invoking the handler, and the context stays
empty. -/
theorem run_tool_no_data_witness :
    run_tool (fun _ t => t) ToolName.cluster none ⟨[], none⟩ =
      (TurnOutcome.noData ⟨"no suitable data available for cluster"⟩,
        ⟨[], none⟩, false) := by
  have h := run_tool_no_data (fun _ t => t) ToolName.cluster ⟨[], none⟩
    (by intro k hk; rfl)
  simpa [toolNameStr] using h

theorem to_binary_matrix_header (t : Table) :
    (to_binary_matrix t).header = identityColumns ++ conceptNames t := rfl

theorem cluster_header (u : Table) (labels : Nat → Int) :
    (cluster u labels).header = u.header ++ ["cluster_id"] := rfl

/-- Every row of a pivoted table is five identity cells followed by one
0/1 cell per distinct concept. -/
theorem matrix_row_shape (t : Table) (r : List Value)
    (hr : r ∈ (to_binary_matrix t).rows) :
    ∃ idVals conceptVals : List Value,
      r = idVals ++ conceptVals ∧ idVals.length = identityColumns.length ∧
      conceptVals.length = (conceptNames t).length ∧
      (∀ v ∈ conceptVals, v = Value.int 0 ∨ v = Value.int 1) := by
  obtain ⟨g, _, hg⟩ := List.mem_map.mp hr
  subst hg
  refine ⟨_, _, rfl, rfl, List.length_map _ _, ?_⟩
  intro v hv
  obtain ⟨c, _, hc⟩ := List.mem_map.mp hv
  by_cases hb : (t.rows.any (fun row =>
      decide (cellOf t.header row "Glottocode" = g) &&
        decide (valueToString (cellOf t.header row "Concept") = c))) = true
  · right
    rw [← hc, if_pos hb]
  · left
    rw [← hc, if_neg hb]

/-- C7 counterexample: the empty table with the eight core columns
satisfies the core contract, yet its pivot has no concept column at all
and therefore fails the binary matrix contract. -/
theorem to_binary_matrix_empty_fails_matrix_contract :
    (validate_core_schema ⟨coreColumns, []⟩).ok = true ∧
    (validate_matrix_schema (to_binary_matrix ⟨coreColumns, []⟩)).ok
      = false := by
  decide

/-- C7 (amended): for every core-valid table with at least one row whose
Concept values avoid the reserved column names, the pivoted table
satisfies the binary matrix contract, and for every labelling the
clustered table obtained from it satisfies the clustered contract. -/
theorem to_binary_matrix_cluster_contract (t : Table)
    (hok : (validate_core_schema t).ok = true)
    (hrows : t.rows ≠ [])
    (hconcepts : ∀ c ∈ conceptNames t, c ∉ reservedColumns) :
    (validate_matrix_schema (to_binary_matrix t)).ok = true ∧
    ∀ labels : Nat → Int,
      (validate_clustered_schema (cluster (to_binary_matrix t) labels)).ok
        = true := by
  clear hok
  have hconc_ne : conceptNames t ≠ [] := by
    unfold conceptNames
    simp [List.dedup_eq_nil, hrows]
  obtain ⟨c₀, hc₀⟩ := List.exists_mem_of_ne_nil _ hconc_ne
  have hc₀id : c₀ ∉ identityColumns := fun h =>
    hconcepts c₀ hc₀ (List.mem_append_left _ h)
  have hc₀cl : c₀ ≠ "cluster_id" := fun h =>
    hconcepts c₀ hc₀ (List.mem_append_right _ (by rw [h]; simp))
  have hcid : "cluster_id" ∉ identityColumns := by decide
  have hany : ∀ r ∈ (to_binary_matrix t).rows,
      ((to_binary_matrix t).header.zip r).any matrixCellBad = false := by
    intro r hr
    obtain ⟨idVals, conceptVals, hsplit, hlen5, _, hbool⟩ :=
      matrix_row_shape t r hr
    subst hsplit
    rw [to_binary_matrix_header, List.zip_append hlen5.symm,
      List.any_append]
    have h1 : (identityColumns.zip idVals).any matrixCellBad = false := by
      rw [List.any_eq_false]
      rintro ⟨a, b⟩ hp
      have hp1 := (List.of_mem_zip hp).1
      simp [matrixCellBad, hp1]
    have h2 : ((conceptNames t).zip conceptVals).any matrixCellBad
        = false := by
      rw [List.any_eq_false]
      rintro ⟨a, b⟩ hp
      have hp2 := (List.of_mem_zip hp).2
      rcases hbool b hp2 with h | h <;>
        simp [matrixCellBad, h, isBoolValue]
    rw [h1, h2]
    rfl
  refine ⟨?_, ?_⟩
  · have hmiss : identityColumns.filter
        (fun c => decide (c ∉ (to_binary_matrix t).header)) = [] := by
      apply List.filter_eq_nil_iff.mpr
      intro c hc
      simp [to_binary_matrix_header, List.mem_append, hc]
    have hnonid : ((to_binary_matrix t).header.filter
        (fun c => decide (c ∉ identityColumns))).isEmpty = false := by
      rw [List.isEmpty_eq_false]
      refine List.ne_nil_of_mem (a := c₀) ?_
      rw [to_binary_matrix_header]
      exact List.mem_filter.mpr
        ⟨List.mem_append_right _ hc₀, by simp [hc₀id]⟩
    have hfilt : (to_binary_matrix t).rows.filter
        (fun r => ((to_binary_matrix t).header.zip r).any matrixCellBad)
          = [] := by
      apply List.filter_eq_nil_iff.mpr
      intro r hr
      simp [hany r hr]
    simp [validate_matrix_schema, hmiss, hnonid, hfilt]
    refine ⟨fun a ha => ?_, ⟨c₀, ?_, hc₀id⟩⟩
    · rw [to_binary_matrix_header]
      exact List.mem_append_left _ ha
    · rw [to_binary_matrix_header]
      exact List.mem_append_right _ hc₀
  · intro labels
    have hanyc : ∀ r ∈ (cluster (to_binary_matrix t) labels).rows,
        ((cluster (to_binary_matrix t) labels).header.zip r).any
          clusteredCellBad = false := by
      intro r hr
      obtain ⟨p, hpmem, hpr⟩ := List.mem_map.mp hr
      have hp2 : p.2 ∈ (to_binary_matrix t).rows :=
        List.getElem?_mem (List.mem_enum_iff_getElem?.mp hpmem)
      obtain ⟨idVals, conceptVals, hsplit, hlen5, hlenc, hbool⟩ :=
        matrix_row_shape t p.2 hp2
      subst hpr
      rw [hsplit, cluster_header, to_binary_matrix_header]
      have hlenBig : (identityColumns ++ conceptNames t).length =
          (idVals ++ conceptVals).length := by
        simp [List.length_append, hlen5, hlenc]
      rw [List.zip_append hlenBig, List.zip_append hlen5.symm,
        List.any_append, List.any_append]
      have h1 : (identityColumns.zip idVals).any clusteredCellBad
          = false := by
        rw [List.any_eq_false]
        rintro ⟨a, b⟩ hp
        have hp1 := (List.of_mem_zip hp).1
        have ha2 : a ≠ "cluster_id" := fun h => hcid (h ▸ hp1)
        simp [clusteredCellBad, hp1, ha2]
      have h2 : ((conceptNames t).zip conceptVals).any clusteredCellBad
          = false := by
        rw [List.any_eq_false]
        rintro ⟨a, b⟩ hp
        have hp2m := (List.of_mem_zip hp).2
        rcases hbool b hp2m with h | h <;>
          simp [clusteredCellBad, h, isBoolValue, isIntValue]
      have h3 : ((["cluster_id"].zip
          [Value.int (labels p.1)]).any clusteredCellBad) = false := by
        simp [clusteredCellBad, isIntValue]
      rw [h1, h2, h3]
      rfl
    have hmissc : identityColumns.filter
        (fun c => decide
          (c ∉ (cluster (to_binary_matrix t) labels).header)) = [] := by
      apply List.filter_eq_nil_iff.mpr
      intro c hc
      simp [cluster_header, to_binary_matrix_header, List.mem_append, hc]
    have hcidmem : "cluster_id" ∈
        (cluster (to_binary_matrix t) labels).header := by
      rw [cluster_header]
      exact List.mem_append_right _ (by simp)
    have hconcc : (((cluster (to_binary_matrix t) labels).header.filter
        (fun c => decide (c ∉ identityColumns) &&
          decide (c ≠ "cluster_id"))).isEmpty) = false := by
      rw [List.isEmpty_eq_false]
      refine List.ne_nil_of_mem (a := c₀) ?_
      rw [cluster_header, to_binary_matrix_header]
      refine List.mem_filter.mpr ⟨?_, by simp [hc₀id, hc₀cl]⟩
      exact List.mem_append_left _ (List.mem_append_right _ hc₀)
    have hfiltc : (cluster (to_binary_matrix t) labels).rows.filter
        (fun r => ((cluster (to_binary_matrix t) labels).header.zip r).any
          clusteredCellBad) = [] := by
      apply List.filter_eq_nil_iff.mpr
      intro r hr
      simp [hanyc r hr]
    simp [validate_clustered_schema, hmissc, hcidmem, hconcc, hfiltc]
    refine ⟨fun a ha => ?_, ⟨c₀, ?_, hc₀id, hc₀cl⟩⟩
    · rw [cluster_header, to_binary_matrix_header]
      exact List.mem_append_left _ (List.mem_append_left _ ha)
    · rw [cluster_header, to_binary_matrix_header]
      exact List.mem_append_left _ (List.mem_append_right _ hc₀)

/-- Witness for C7 (amended): a two-row, two-concept core table pivots
to a valid binary matrix, and labelling both languages as noise yields
a valid clustered table. -/
theorem to_binary_matrix_cluster_contract_witness :
    (validate_matrix_schema (to_binary_matrix
        ⟨coreColumns,
          [[.str "abcd1234", .str "FamA", .str "LangA", .str "water",
            .str "aqua", .str "10.0", .str "20.0", .str "web"],
           [.str "efgh5678", .str "FamB", .str "LangB", .str "fire",
            .str "ignis", .str "-5.5", .str "30.0", .str "web"]]⟩)).ok
      = true ∧
    (validate_clustered_schema (cluster (to_binary_matrix
        ⟨coreColumns,
          [[.str "abcd1234", .str "FamA", .str "LangA", .str "water",
            .str "aqua", .str "10.0", .str "20.0", .str "web"],
           [.str "efgh5678", .str "FamB", .str "LangB", .str "fire",
            .str "ignis", .str "-5.5", .str "30.0", .str "web"]]⟩)
        (fun _ => -1))).ok = true := by
  have h := to_binary_matrix_cluster_contract
    ⟨coreColumns,
      [[.str "abcd1234", .str "FamA", .str "LangA", .str "water",
        .str "aqua", .str "10.0", .str "20.0", .str "web"],
       [.str "efgh5678", .str "FamB", .str "LangB", .str "fire",
        .str "ignis", .str "-5.5", .str "30.0", .str "web"]]⟩
    (by decide) (by decide) (by decide)
  exact ⟨h.1, h.2 (fun _ => -1)⟩

end Backend

namespace Frontend

/-- C6: contrary to the coordinate-hygiene requirement, the App's
`handleAddCsvToMap` silently drops rows whose coordinates fail the
range check instead of reporting them as errors, and performs no
degree-symbol or directional-suffix stripping: on a CSV whose second
data row has latitude 95.0 and whose third has a degree-prefixed
latitude, all three rows parse into `data` but only one survives into
`filteredData`, the layer is still created as spatial, and no error is
recorded anywhere in the result. -/
theorem handleAddCsvToMap_drops_rows_silently :
    (handleAddCsvToMap chatCsvSample).map
        (fun l => (l.data.length, l.filteredData.length, l.isSpatial)) =
      some (3, 1, true) := by
  decide

/-- C8: the transcript text the ChatInterface renders for a message
does not depend on the attached CSV payload beyond its presence and its
line count (the payload is never placed into the text channel), and the
Download-CSV path receives exactly the attached payload. -/
theorem transcript_independent_of_payload :
    (∀ (onAdd : Bool) (m : Message) (s₁ s₂ : String),
      decide (s₁ ≠ "") = decide (s₂ ≠ "") →
      csvMultiline s₁ = csvMultiline s₂ →
      renderMessage onAdd (withCsv m s₁) =
        renderMessage onAdd (withCsv m s₂)) ∧
    (∀ (m : Message) (td : ToolData) (s : String),
      m.toolData = some td → td.result.csv = some s → s ≠ "" →
      downloadRequest m =
        some (s, td.result.filename.getD "linguistic_data.csv")) := by
  constructor
  · intro onAdd m s₁ s₂ h1 h2
    cases hm : m.toolData with
    | none => simp [renderMessage, withCsv, hm]
    | some td => simp [renderMessage, withCsv, hm, h1, h2]
  · intro m td s hm hcsv hne
    simp [downloadRequest, hm, hcsv, hne]

/-- Witness for C8: swapping a two-line CSV payload for an entirely
different three-line payload leaves the rendered transcript of the
message unchanged, and the download path hands over the payload
itself. -/
theorem transcript_independent_of_payload_witness :
    renderMessage true
        (withCsv ⟨"assistant", "Clustered 20 languages",
          some ⟨some "cluster",
            ⟨some "a,b\n1,2", some "clusters.csv", some 20, []⟩⟩,
          some 3⟩ "a,b\n1,2") =
      renderMessage true
        (withCsv ⟨"assistant", "Clustered 20 languages",
          some ⟨some "cluster",
            ⟨some "a,b\n1,2", some "clusters.csv", some 20, []⟩⟩,
          some 3⟩ "X,Y,Z\n3,4,5\n6,7,8") ∧
    downloadRequest
        ⟨"assistant", "Clustered 20 languages",
          some ⟨some "cluster",
            ⟨some "a,b\n1,2", some "clusters.csv", some 20, []⟩⟩,
          some 3⟩ =
      some ("a,b\n1,2", "clusters.csv") := by
  constructor
  · exact transcript_independent_of_payload.1 true _ "a,b\n1,2"
      "X,Y,Z\n3,4,5\n6,7,8" (by decide) (by decide)
  · exact transcript_independent_of_payload.2 _
      ⟨some "cluster",
        ⟨some "a,b\n1,2", some "clusters.csv", some 20, []⟩⟩
      "a,b\n1,2" rfl rfl (by decide)

/-- C9: the export buttons of both data tables receive the full
filtered record list (every record matching the active filters), the
docked table displays only its first 100 records and the full-screen
table its first 500, and the export is never truncated by either
display cap. -/
theorem export_full_filtered (data : List TableRec) (fl : TableFilters) :
    exportRows data fl = data.filter (matchesFilters fl) ∧
    dockedDisplayData data fl = (exportRows data fl).take 100 ∧
    fullDisplayData data fl = (exportRows data fl).take 500 ∧
    (dockedDisplayData data fl).length ≤ (exportRows data fl).length ∧
    (fullDisplayData data fl).length ≤ (exportRows data fl).length ∧
    (∀ d ∈ data, matchesFilters fl d = true →
      d ∈ exportRows data fl) := by
  refine ⟨rfl, rfl, rfl, ?_, ?_, ?_⟩
  · simp only [dockedDisplayData, exportRows, List.length_take]
    omega
  · simp only [fullDisplayData, exportRows, List.length_take]
    omega
  · intro d hd hmatch
    exact List.mem_filter.mpr ⟨hd, hmatch⟩

/-- Witness for C9: a record matching the search filter "ber" is
contained in the exported rows of its layer. -/
theorem export_full_filtered_witness :
    (⟨some "Berlin", none, some "Capital city", none, none, none⟩ :
        TableRec) ∈
      exportRows
        [⟨some "Berlin", none, some "Capital city", none, none, none⟩]
        ⟨some "ber", none, none⟩ :=
  (export_full_filtered
      [⟨some "Berlin", none, some "Capital city", none, none, none⟩]
      ⟨some "ber", none, none⟩).2.2.2.2.2
    ⟨some "Berlin", none, some "Capital city", none, none, none⟩
    (by simp) (by decide)

/-- C10: a file selected through the chat upload control whose name
does not end in ".csv" is rejected before any request is dispatched and
before any state change: the message list, the loading flag and the
uploaded-file state are exactly as before, no request is sent, and the
alert is shown. -/
theorem handleFileUpload_rejects_non_csv (st : ChatState)
    (f : UploadFile) (h : jsEndsWith f.name ".csv" = false) :
    handleFileUpload st (some f) =
      (st, [], ["Please upload a CSV file"]) := by
  simp [handleFileUpload, h]

/-- Witness for C10: uploading "data.txt" into a fresh chat leaves the
state untouched, sends nothing, and alerts. -/
theorem handleFileUpload_rejects_non_csv_witness :
    jsEndsWith "data.txt" ".csv" = false ∧
    handleFileUpload ⟨[], false, none⟩
        (some ⟨"data.txt", "a,b"⟩) =
      (⟨[], false, none⟩, [], ["Please upload a CSV file"]) :=
  ⟨by decide, handleFileUpload_rejects_non_csv _ _ (by decide)⟩

end Frontend
